import Mathlib

/-!
Verification development for the Expense-Tracker repository.

Shallow embedding of the derived-aggregate consistency engine:
the Aggregation Engine (`src/utils/calculations.ts`) and the
Consistency Coordinator (`src/contexts/DataContext.tsx`).

Modelling conventions:
* JS numbers are modelled as `ℚ` (exact arithmetic on already-rounded
  two-decimal values; no claim in scope depends on binary floating-point
  rounding).
* A JS `Date` is modelled at day granularity as a year/month/day triple;
  `parseISO` is the identity (entities carry dates directly).
* Optional string fields whose JS use is via truthiness (`!x`) conflate
  the empty string with `undefined`; both are modelled as `none`.
* React `useState` updates inside one event handler are modelled as
  sequential record updates; where the source reads a *stale closure*
  (nested `addIncome` inside `addBankAccount` sees the pre-creation
  `bankAccounts` array), the lookup list is passed explicitly.
* Calls to durable storage (`save...ToStorage`, Firestore writes) and
  `console.warn` are external effects outside the modelled state.
-/

/-- Day-granularity calendar date (models a JS `Date` / ISO date string). -/
structure Date where
  y : Nat
  m : Nat
  d : Nat
deriving DecidableEq, Repr

/-- Chronological key of a date; comparisons of JS `Date` values are
modelled as comparisons of this key. -/
def Date.key (t : Date) : Nat := (t.y * 100 + t.m) * 100 + t.d

/-- Boolean date comparison (`a <= b` on JS dates, day granularity). -/
def Date.leb (a b : Date) : Bool := a.key ≤ b.key

/-- Gregorian leap-year rule. -/
def isLeapYear (y : Nat) : Bool := y % 4 == 0 && (y % 100 != 0 || y % 400 == 0)

/-- Number of days in a month (Gregorian calendar). -/
def daysInMonth (y m : Nat) : Nat :=
  if m == 2 then (if isLeapYear y then 29 else 28)
  else if m == 4 || m == 6 || m == 9 || m == 11 then 30
  else 31

/-- date-fns `startOfMonth`. -/
def startOfMonth (t : Date) : Date := ⟨t.y, t.m, 1⟩

/-- date-fns `endOfMonth` (day granularity: the last day of the month). -/
def endOfMonth (t : Date) : Date := ⟨t.y, t.m, daysInMonth t.y t.m⟩

/-- date-fns `addMonths(t, 1)`: step to the next month, clamping the
day to the length of the target month. -/
def addOneMonth (t : Date) : Date :=
  if t.m ≥ 12 then ⟨t.y + 1, 1, min t.d (daysInMonth (t.y + 1) 1)⟩
  else ⟨t.y, t.m + 1, min t.d (daysInMonth t.y (t.m + 1))⟩

/-- The day after `t` (used only to state the frozen claims' own
`now + horizonDays` window, which the source does not implement). -/
def nextDay (t : Date) : Date :=
  if t.d < daysInMonth t.y t.m then ⟨t.y, t.m, t.d + 1⟩
  else if t.m < 12 then ⟨t.y, t.m + 1, 1⟩
  else ⟨t.y + 1, 1, 1⟩

/-- `t` plus `n` calendar days. -/
def addDays (t : Date) : Nat → Date
  | 0 => t
  | n + 1 => addDays (nextDay t) n

/-- date-fns `isWithinInterval x {start, end}`. -/
def isWithinInterval (x start end_ : Date) : Bool :=
  start.leb x && x.leb end_

/-- Recurrence frequency of a transaction (`frequency` field). -/
inductive Frequency where
  | monthly
  | yearly
  | oneTime
  | noFreq
deriving DecidableEq, Repr

/-- `Income` entity (src/types). -/
structure Income where
  id : String
  userId : String
  bankAccountId : String
  source : String
  amount : ℚ
  frequency : Frequency
  date : Date
  description : String
deriving DecidableEq, Repr

/-- `Expense` entity (src/types). `nextDueDate = none` models an absent
(or empty, hence JS-falsy) due date. -/
structure Expense where
  id : String
  userId : String
  bankAccountId : String
  category : String
  amount : ℚ
  date : Date
  isRecurring : Bool
  frequency : Frequency
  nextDueDate : Option Date
  description : String
deriving DecidableEq, Repr

/-- Budget period. -/
inductive Period where
  | monthly
  | yearly
deriving DecidableEq, Repr

/-- `Budget` entity (src/types). -/
structure Budget where
  id : String
  userId : String
  category : String
  budgetAmount : ℚ
  period : Period
  alertThreshold : ℚ
deriving DecidableEq, Repr

/-- `SavingsGoal` entity (src/types); `bankAccountId = none` models an
absent (or empty, hence JS-falsy) account scope. -/
structure SavingsGoal where
  id : String
  userId : String
  title : String
  bankAccountId : Option String
  autoTrackedAmount : ℚ
deriving DecidableEq, Repr

/-- `BankAccount` entity (src/types). -/
structure BankAccount where
  id : String
  userId : String
  bankId : String
  bankName : String
  createdAt : Date
  startingBalance : ℚ
  totalIncome : ℚ
  totalExpense : ℚ
  currentBalance : ℚ
deriving DecidableEq, Repr

/-- Result record of `calculateFinancialSummary` /
`calculateFinancialSummaryWithAccount`. -/
structure FinancialSummary where
  totalIncome : ℚ
  totalExpenses : ℚ
  savings : ℚ
  savingsRate : ℚ
  monthlyBudgetUsed : ℚ
  monthlyBudgetRemaining : ℚ
  upcomingBills : List Expense
deriving DecidableEq, Repr

/-! ## Aggregation Engine (`src/utils/calculations.ts`) -/

/-- `calculateMonthlyIncome(incomes, date)`. -/
def calculateMonthlyIncome (incomes : List Income) (date : Date) : ℚ :=
  let monthStart := startOfMonth date
  let monthEnd := endOfMonth date
  incomes.foldl (fun total income =>
    if income.frequency = Frequency.monthly then total + income.amount
    else if income.frequency = Frequency.yearly then total + income.amount / 12
    else if income.frequency = Frequency.oneTime &&
            monthStart.leb income.date && income.date.leb monthEnd then
      total + income.amount
    else total) 0

/-- `calculateMonthlyExpenses(expenses, date)`. -/
def calculateMonthlyExpenses (expenses : List Expense) (date : Date) : ℚ :=
  let monthStart := startOfMonth date
  let monthEnd := endOfMonth date
  expenses.foldl (fun total expense =>
    if expense.isRecurring && expense.frequency == Frequency.monthly then
      total + expense.amount
    else if expense.isRecurring && expense.frequency == Frequency.yearly then
      total + expense.amount / 12
    else if !expense.isRecurring &&
            isWithinInterval expense.date monthStart monthEnd then
      total + expense.amount
    else total) 0

/-- `calculateCategoryExpenses(expenses, category, date)`. -/
def calculateCategoryExpenses (expenses : List Expense) (category : String)
    (date : Date) : ℚ :=
  let monthStart := startOfMonth date
  let monthEnd := endOfMonth date
  (expenses.filter (fun expense => expense.category == category)).foldl
    (fun total expense =>
      if expense.isRecurring && expense.frequency == Frequency.monthly then
        total + expense.amount
      else if expense.isRecurring && expense.frequency == Frequency.yearly then
        total + expense.amount / 12
      else if !expense.isRecurring &&
              isWithinInterval expense.date monthStart monthEnd then
        total + expense.amount
      else total) 0

/-- Sort key used by `getUpcomingBills`' comparator
(`parseISO(e.nextDueDate!).getTime()`); the `none` case is unreachable
after the filter. -/
def dueKey (e : Expense) : Nat :=
  match e.nextDueDate with
  | some t => t.key
  | none => 0

/-- Comparator relation of `getUpcomingBills`' ascending sort. -/
def dueLE (a b : Expense) : Prop := dueKey a ≤ dueKey b

instance : DecidableRel dueLE := fun a b => Nat.decLe (dueKey a) (dueKey b)

instance : IsTotal Expense dueLE := ⟨fun a b => Nat.le_total (dueKey a) (dueKey b)⟩

instance : IsTrans Expense dueLE := ⟨fun _ _ _ h₁ h₂ => Nat.le_trans h₁ h₂⟩

/-- `getUpcomingBills(expenses, daysAhead = 7)`.  The wall-clock `new Date()`
read inside the function body is threaded as the explicit `now` argument.
Note that the source computes `futureDate = addMonths(now, 1)` and never
reads `daysAhead`. JS `Array.prototype.sort` is stable; it is modelled by
stable insertion sort. -/
def getUpcomingBills (expenses : List Expense) (daysAhead : Nat) (now : Date) :
    List Expense :=
  let futureDate := addOneMonth now
  ((expenses.filter (fun e => e.isRecurring && e.nextDueDate.isSome)).filter
    (fun e =>
      match e.nextDueDate with
      | some dueDate => now.leb dueDate && dueDate.leb futureDate
      | none => false)).insertionSort dueLE

/-- `calculateFinancialSummary(incomes, expenses, budgets, date)`.
`now` is the wall-clock instant read by the nested `getUpcomingBills`. -/
def calculateFinancialSummary (incomes : List Income) (expenses : List Expense)
    (budgets : List Budget) (date now : Date) : FinancialSummary :=
  let totalIncome := calculateMonthlyIncome incomes date
  let totalExpenses := calculateMonthlyExpenses expenses date
  let savings := totalIncome - totalExpenses
  let savingsRate := if totalIncome > 0 then savings / totalIncome * 100 else 0
  let monthlyBudget := (budgets.filter (fun b => b.period == Period.monthly)).foldl
    (fun total b => total + b.budgetAmount) 0
  let monthlyBudgetUsed := totalExpenses
  let monthlyBudgetRemaining := monthlyBudget - monthlyBudgetUsed
  { totalIncome := totalIncome
    totalExpenses := totalExpenses
    savings := savings
    savingsRate := savingsRate
    monthlyBudgetUsed := monthlyBudgetUsed
    monthlyBudgetRemaining := monthlyBudgetRemaining
    upcomingBills := getUpcomingBills expenses 7 now }

/-- `calculateFinancialSummaryWithAccount(incomes, expenses, budgets,
selectedAccount, date)`; total income is read from the authoritative
`selectedAccount.totalIncome`. -/
def calculateFinancialSummaryWithAccount (incomes : List Income)
    (expenses : List Expense) (budgets : List Budget)
    (selectedAccount : Option BankAccount) (date now : Date) : FinancialSummary :=
  let totalIncome := match selectedAccount with
    | some account => account.totalIncome
    | none => 0
  let totalExpenses := calculateMonthlyExpenses expenses date
  let savings := totalIncome - totalExpenses
  let savingsRate := if totalIncome > 0 then savings / totalIncome * 100 else 0
  let monthlyBudget := (budgets.filter (fun b => b.period == Period.monthly)).foldl
    (fun total b => total + b.budgetAmount) 0
  let monthlyBudgetUsed := totalExpenses
  let monthlyBudgetRemaining := monthlyBudget - monthlyBudgetUsed
  { totalIncome := totalIncome
    totalExpenses := totalExpenses
    savings := savings
    savingsRate := savingsRate
    monthlyBudgetUsed := monthlyBudgetUsed
    monthlyBudgetRemaining := monthlyBudgetRemaining
    upcomingBills := getUpcomingBills expenses 7 now }

/-- `calculateBudgetProgress(expenses, budget, date)`. -/
def calculateBudgetProgress (expenses : List Expense) (budget : Budget)
    (date : Date) : ℚ :=
  let categoryExpenses := calculateCategoryExpenses expenses budget.category date
  if budget.budgetAmount > 0 then categoryExpenses / budget.budgetAmount * 100
  else 0

/-! ## Consistency Coordinator (`src/contexts/DataContext.tsx`)

The `DataProvider` component state.  `budgetProgress` (recomputed by a
`useEffect` from `budgets`/`expenses`) is a derived cache outside the
claims in scope and is not carried in the state record.  `totalIncome`,
`totalExpense` and `monthlySavings` are the provider-local listener
totals (`useState` at lines 103-105), distinct from the fields of the
`BankAccount` entities. -/
structure CoordState where
  user : Option String
  bankAccounts : List BankAccount
  selectedBankAccount : Option BankAccount
  incomes : List Income
  expenses : List Expense
  budgets : List Budget
  savingsGoals : List SavingsGoal
  totalIncome : ℚ
  totalExpense : ℚ
  monthlySavings : ℚ
  loading : Bool
deriving DecidableEq, Repr

/-- `updateBankAccount(account)`: replace the account with a matching id
in the list and refresh the selection when it pointed at that id
(the storage write is an external effect). -/
def updateBankAccount (s : CoordState) (account : BankAccount) : CoordState :=
  { s with
    bankAccounts := s.bankAccounts.map
      (fun a => if a.id == account.id then account else a)
    selectedBankAccount :=
      match s.selectedBankAccount with
      | some sel => if sel.id == account.id then some account else s.selectedBankAccount
      | none => s.selectedBankAccount }

/-- Scope test of `updateAutoTrackedSavingsForAccount`:
`!goal.bankAccountId || goal.bankAccountId === bankAccountId`
(`none` models a JS-falsy — absent or empty — account id). -/
def goalInScope (goal : SavingsGoal) (bankAccountId : String) : Bool :=
  match goal.bankAccountId with
  | none => true
  | some b => b == bankAccountId

/-- `updateAutoTrackedSavingsForAccount(bankAccountId, totalIncome,
totalExpense)`: clamp `max(0, totalIncome - totalExpense)` onto every
goal whose scope includes the account; other goals are returned as-is. -/
def updateAutoTrackedSavingsForAccount (s : CoordState) (bankAccountId : String)
    (totalIncome totalExpense : ℚ) : CoordState :=
  let monthlySavings := totalIncome - totalExpense
  let updatedGoals := s.savingsGoals.map (fun goal =>
    if goalInScope goal bankAccountId then
      { goal with autoTrackedAmount := max 0 monthlySavings }
    else goal)
  { s with savingsGoals := updatedGoals }

/-- `updateAllAutoTrackedSavings()`: when an account is selected, clamp
its savings figure onto every goal. -/
def updateAllAutoTrackedSavings (s : CoordState) : CoordState :=
  match s.selectedBankAccount with
  | some account =>
    let monthlySavings := account.totalIncome - account.totalExpense
    { s with savingsGoals := s.savingsGoals.map (fun goal =>
        { goal with autoTrackedAmount := max 0 monthlySavings }) }
  | none => s

/-- Body of `recalculateAndUpdateTotalsWithArray`, with the
`bankAccounts` array captured by the function's closure passed
explicitly as `lookupAccounts` (it differs from `s.bankAccounts` only
for the nested invocation inside `addBankAccount`). -/
def recalcCore (s : CoordState) (lookupAccounts : List BankAccount)
    (bankAccountId : String) (incomesArray : List Income)
    (expensesArray : List Expense) : CoordState :=
  let accountIncomes := incomesArray.filter (fun i => i.bankAccountId == bankAccountId)
  let accountExpenses := expensesArray.filter (fun e => e.bankAccountId == bankAccountId)
  let totalIncome := accountIncomes.foldl (fun sum i => sum + i.amount) 0
  let totalExpense := accountExpenses.foldl (fun sum e => sum + e.amount) 0
  let currentBalance := totalIncome - totalExpense
  match lookupAccounts.find? (fun a => a.id == bankAccountId) with
  | some account =>
    let updatedAccount := { account with
      totalIncome := totalIncome
      totalExpense := totalExpense
      currentBalance := currentBalance }
    updateAutoTrackedSavingsForAccount (updateBankAccount s updatedAccount)
      bankAccountId totalIncome totalExpense
  | none => s

/-- `recalculateAndUpdateTotalsWithArray(bankAccountId, incomesArray,
expensesArray)` as invoked with an up-to-date `bankAccounts` closure. -/
def recalculateAndUpdateTotalsWithArray (s : CoordState) (bankAccountId : String)
    (incomesArray : List Income) (expensesArray : List Expense) : CoordState :=
  recalcCore s s.bankAccounts bankAccountId incomesArray expensesArray

/-- Argument record of `addIncome` (`Omit<Income, 'id' | 'userId'>`). -/
structure IncomeData where
  bankAccountId : String
  source : String
  amount : ℚ
  frequency : Frequency
  date : Date
  description : String
deriving DecidableEq, Repr

/-- `addIncome(incomeData)`; `freshId` stands for `generateId()`. -/
def addIncome (s : CoordState) (freshId : String) (incomeData : IncomeData) :
    CoordState :=
  match s.user with
  | none => s
  | some uid =>
    let income : Income :=
      { id := freshId
        userId := uid
        bankAccountId := incomeData.bankAccountId
        source := incomeData.source
        amount := incomeData.amount
        frequency := incomeData.frequency
        date := incomeData.date
        description := incomeData.description }
    let updated := s.incomes ++ [income]
    recalculateAndUpdateTotalsWithArray { s with incomes := updated }
      income.bankAccountId updated s.expenses

/-- `updateIncome(income)`. -/
def updateIncome (s : CoordState) (income : Income) : CoordState :=
  let updated := s.incomes.map (fun i => if i.id == income.id then income else i)
  recalculateAndUpdateTotalsWithArray { s with incomes := updated }
    income.bankAccountId updated s.expenses

/-- `deleteIncome(incomeId)`. -/
def deleteIncome (s : CoordState) (incomeId : String) : CoordState :=
  match s.incomes.find? (fun i => i.id == incomeId) with
  | none => s
  | some income =>
    let updated := s.incomes.filter (fun i => !(i.id == incomeId))
    recalculateAndUpdateTotalsWithArray { s with incomes := updated }
      income.bankAccountId updated s.expenses

/-- Argument record of `addExpense` (`Omit<Expense, 'id' | 'userId'>`). -/
structure ExpenseData where
  bankAccountId : String
  category : String
  amount : ℚ
  date : Date
  isRecurring : Bool
  frequency : Frequency
  nextDueDate : Option Date
  description : String
deriving DecidableEq, Repr

/-- `addExpense(expenseData)`; the raw expense is not written to durable
storage (the source comments the write out and relies on the remote
snapshot channel). -/
def addExpense (s : CoordState) (freshId : String) (expenseData : ExpenseData) :
    CoordState :=
  match s.user with
  | none => s
  | some uid =>
    let expense : Expense :=
      { id := freshId
        userId := uid
        bankAccountId := expenseData.bankAccountId
        category := expenseData.category
        amount := expenseData.amount
        date := expenseData.date
        isRecurring := expenseData.isRecurring
        frequency := expenseData.frequency
        nextDueDate := expenseData.nextDueDate
        description := expenseData.description }
    let updated := s.expenses ++ [expense]
    recalculateAndUpdateTotalsWithArray { s with expenses := updated }
      expense.bankAccountId s.incomes updated

/-- `updateExpense(expense)`. -/
def updateExpense (s : CoordState) (expense : Expense) : CoordState :=
  let updated := s.expenses.map (fun e => if e.id == expense.id then expense else e)
  recalculateAndUpdateTotalsWithArray { s with expenses := updated }
    expense.bankAccountId s.incomes updated

/-- `deleteExpense(expenseId)`: the array shrinks unconditionally; totals
are recomputed only when the expense was found. -/
def deleteExpense (s : CoordState) (expenseId : String) : CoordState :=
  let found := s.expenses.find? (fun e => e.id == expenseId)
  let updated := s.expenses.filter (fun e => !(e.id == expenseId))
  match found with
  | some expense =>
    recalculateAndUpdateTotalsWithArray { s with expenses := updated }
      expense.bankAccountId s.incomes updated
  | none => { s with expenses := updated }

/-- Argument record of `addBudget` (`Omit<Budget, 'id' | 'userId'>`). -/
structure BudgetData where
  category : String
  budgetAmount : ℚ
  period : Period
  alertThreshold : ℚ
deriving DecidableEq, Repr

/-- `addBudget(budgetData)`. -/
def addBudget (s : CoordState) (freshId : String) (budgetData : BudgetData) :
    CoordState :=
  match s.user with
  | none => s
  | some uid =>
    let budget : Budget :=
      { id := freshId
        userId := uid
        category := budgetData.category
        budgetAmount := budgetData.budgetAmount
        period := budgetData.period
        alertThreshold := budgetData.alertThreshold }
    { s with budgets := s.budgets ++ [budget] }

/-- `updateBudget(budget)`. -/
def updateBudget (s : CoordState) (budget : Budget) : CoordState :=
  { s with budgets := s.budgets.map (fun b => if b.id == budget.id then budget else b) }

/-- `deleteBudget(budgetId)`. -/
def deleteBudget (s : CoordState) (budgetId : String) : CoordState :=
  { s with budgets := s.budgets.filter (fun b => !(b.id == budgetId)) }

/-- Argument record of `addSavingsGoal` (`Omit<SavingsGoal, 'id' | 'userId'>`);
its `autoTrackedAmount` is overridden by the operation. -/
structure SavingsGoalData where
  title : String
  bankAccountId : Option String
  autoTrackedAmount : ℚ
deriving DecidableEq, Repr

/-- `addSavingsGoal(goalData)`: a no-op (a warning is logged) when a goal
with the same case-insensitive title already exists for this owner;
otherwise the goal is created with `autoTrackedAmount` seeded from
`max(0, selected.totalIncome - selected.totalExpense)`. -/
def addSavingsGoal (s : CoordState) (freshId : String)
    (goalData : SavingsGoalData) : CoordState :=
  match s.user with
  | none => s
  | some uid =>
    match s.savingsGoals.find? (fun goal =>
        goal.title.toLower == goalData.title.toLower && goal.userId == uid) with
    | some _ => s
    | none =>
      let monthlySavings := match s.selectedBankAccount with
        | some account => account.totalIncome - account.totalExpense
        | none => 0
      let goal : SavingsGoal :=
        { id := freshId
          userId := uid
          title := goalData.title
          bankAccountId := goalData.bankAccountId
          autoTrackedAmount := max 0 monthlySavings }
      { s with savingsGoals := s.savingsGoals ++ [goal] }

/-- `updateSavingsGoal(goal)`: stores the caller-supplied goal verbatim. -/
def updateSavingsGoal (s : CoordState) (goal : SavingsGoal) : CoordState :=
  { s with savingsGoals := s.savingsGoals.map (fun g => if g.id == goal.id then goal else g) }

/-- `deleteSavingsGoal(goalId)`. -/
def deleteSavingsGoal (s : CoordState) (goalId : String) : CoordState :=
  match s.user with
  | none => s
  | some _ => { s with savingsGoals := s.savingsGoals.filter (fun g => !(g.id == goalId)) }

/-- Argument record of `addBankAccount`
(`Omit<BankAccount, 'id' | 'userId' | 'createdAt' | 'totalIncome' | 'totalExpense'>`). -/
structure BankAccountData where
  bankName : String
  startingBalance : ℚ
deriving DecidableEq, Repr

/-- The account record constructed by `addBankAccount` (lines 213-223):
note `totalIncome` is initialised to `startingBalance`, not to 0. -/
def mkBankAccount (uid freshId : String) (now : Date) (data : BankAccountData) :
    BankAccount :=
  { id := freshId
    userId := uid
    bankId := data.bankName
    bankName := data.bankName
    createdAt := now
    startingBalance := data.startingBalance
    totalIncome := data.startingBalance
    totalExpense := 0
    currentBalance := data.startingBalance }

/-- `addBankAccount(accountData)`: append the new account, select it, and
when `startingBalance > 0` seed a synthetic "Initial Balance" income via
`addIncome`.  The nested `recalculateAndUpdateTotalsWithArray` call runs
with the `bankAccounts` and `expenses` arrays captured *before* the
account was appended (React stale closure), so its account lookup misses
the fresh id and it leaves accounts and goals untouched. -/
def addBankAccount (s : CoordState) (accountId incomeId : String) (now : Date)
    (accountData : BankAccountData) : CoordState :=
  match s.user with
  | none => s
  | some uid =>
    let account := mkBankAccount uid accountId now accountData
    let s1 := { s with
      bankAccounts := s.bankAccounts ++ [account]
      selectedBankAccount := some account }
    if 0 < accountData.startingBalance then
      let income : Income :=
        { id := incomeId
          userId := uid
          bankAccountId := account.id
          source := "Initial Balance"
          amount := accountData.startingBalance
          frequency := Frequency.oneTime
          date := now
          description := "Initial balance at account creation" }
      let updated := s1.incomes ++ [income]
      recalcCore { s1 with incomes := updated } s.bankAccounts account.id
        updated s.expenses
    else s1

/-- `deleteBankAccount(accountId)`: drop the account; when it was the
selected one, select the first remaining account (or none). -/
def deleteBankAccount (s : CoordState) (accountId : String) : CoordState :=
  match s.user with
  | none => s
  | some _ =>
    let s1 := { s with bankAccounts := s.bankAccounts.filter (fun a => !(a.id == accountId)) }
    match s.selectedBankAccount with
    | some sel =>
      if sel.id == accountId then
        let remaining := s.bankAccounts.filter (fun a => !(a.id == accountId))
        { s1 with selectedBankAccount := remaining.head? }
      else s1
    | none => s1

/-- The Firestore `onSnapshot` handler for the selected account's
`expenses` collection (lines 177-186), composed with the follow-up
`monthlySavings` effect (lines 206-208): the working-set array is
replaced wholesale by the snapshot, the provider-local `totalExpense`
becomes the sum of the snapshot's amounts (`Number(item.amount) || 0`
is the amount itself for the numeric amounts modelled here), and
`loading` clears.  The handler does not invoke
`recalculateAndUpdateTotalsWithArray`: bank accounts and savings goals
are untouched. -/
def onExpensesSnapshot (s : CoordState) (snapshot : List Expense) : CoordState :=
  let total := snapshot.foldl (fun sum item => sum + item.amount) 0
  { s with
    expenses := snapshot
    totalExpense := total
    loading := false
    monthlySavings := s.totalIncome - total }

/-- The Firestore `onSnapshot` handler for the selected account's
`incomes` collection (lines 189-198), composed with the follow-up
`monthlySavings` effect. -/
def onIncomesSnapshot (s : CoordState) (snapshot : List Income) : CoordState :=
  let total := snapshot.foldl (fun sum item => sum + item.amount) 0
  { s with
    incomes := snapshot
    totalIncome := total
    loading := false
    monthlySavings := total - s.totalExpense }

/-! ## Helper lemmas and shared concrete fixtures -/

/-- A left fold accumulating `f x` equals the initial value plus the sum
of the mapped list (the `reduce((t, x) => t + x.amount, 0)` pattern). -/
theorem foldl_add_map_sum {α : Type} (f : α → ℚ) :
    ∀ (l : List α) (init : ℚ),
      l.foldl (fun t x => t + f x) init = init + (l.map f).sum := by
  intro l
  induction l with
  | nil => intro init; simp
  | cons x xs ih =>
    intro init
    simp only [List.foldl_cons, List.map_cons, List.sum_cons, ih, add_assoc]

/-- Source-shaped total: sum of the amounts of the incomes belonging to
one bank account. -/
def sumIncomeFor (bankAccountId : String) (l : List Income) : ℚ :=
  ((l.filter (fun i => i.bankAccountId == bankAccountId)).map Income.amount).sum

/-- Source-shaped total: sum of the amounts of the expenses belonging to
one bank account. -/
def sumExpenseFor (bankAccountId : String) (l : List Expense) : ℚ :=
  ((l.filter (fun e => e.bankAccountId == bankAccountId)).map Expense.amount).sum

/-- Shared fixture date. -/
def baseDate : Date := ⟨2025, 6, 15⟩

/-- Shared fixture bank account. -/
def acc1 : BankAccount :=
  { id := "a1", userId := "u", bankId := "B", bankName := "B",
    createdAt := baseDate, startingBalance := 0, totalIncome := 0,
    totalExpense := 0, currentBalance := 0 }

/-- Shared fixture income (monthly, 30). -/
def inc1 : Income :=
  { id := "i1", userId := "u", bankAccountId := "a1", source := "Salary",
    amount := 30, frequency := Frequency.monthly, date := baseDate,
    description := "" }

/-- Shared fixture expense (one-time, 10, in the month of `baseDate`). -/
def exp1 : Expense :=
  { id := "e1", userId := "u", bankAccountId := "a1", category := "food",
    amount := 10, date := baseDate, isRecurring := false,
    frequency := Frequency.noFreq, nextDueDate := none, description := "" }

/-- Shared fixture coordinator state: one user, one selected account,
empty working set. -/
def baseState : CoordState :=
  { user := some "u", bankAccounts := [acc1], selectedBankAccount := some acc1,
    incomes := [], expenses := [], budgets := [], savingsGoals := [],
    totalIncome := 0, totalExpense := 0, monthlySavings := 0, loading := false }

/-! ## Claim C1 -/

/-- Claim C1: for every bank account present in the coordinator state and
every incomes/expenses array pair, `recalculateAndUpdateTotalsWithArray`
sets the account's `totalIncome` to the sum of the amounts of the
matching incomes, `totalExpense` to the sum of the amounts of the
matching expenses, and `currentBalance` to their difference; hence
`currentBalance = totalIncome - totalExpense` holds immediately after
the recomputation. -/
theorem recalc_sets_totals_and_balance (s : CoordState) (accId : String)
    (inc : List Income) (exp : List Expense) (acc : BankAccount)
    (hfind : s.bankAccounts.find? (fun a => a.id == accId) = some acc) :
    ∀ b ∈ (recalculateAndUpdateTotalsWithArray s accId inc exp).bankAccounts,
      b.id = accId →
        b.totalIncome = sumIncomeFor accId inc ∧
        b.totalExpense = sumExpenseFor accId exp ∧
        b.currentBalance = b.totalIncome - b.totalExpense := by
  intro b hb hid
  have hacc : acc.id = accId := by
    have := List.find?_some hfind
    simpa using this
  simp only [recalculateAndUpdateTotalsWithArray, recalcCore, hfind,
    updateAutoTrackedSavingsForAccount, updateBankAccount] at hb
  obtain ⟨a, _, rfl⟩ := List.mem_map.mp hb
  by_cases h : a.id = acc.id
  · simp only [h, beq_self_eq_true, if_pos] at hid ⊢
    refine ⟨?_, ?_, ?_⟩
    · simp [foldl_add_map_sum, sumIncomeFor]
    · simp [foldl_add_map_sum, sumExpenseFor]
    · simp
  · have : (a.id == acc.id) = false := beq_eq_false_iff_ne.mpr h
    simp only [this, if_neg, Bool.false_eq_true] at hid ⊢
    exact absurd (hid.trans hacc.symm) h

/-- The `a1` account after the C1 witness recomputation. -/
def acc1Recomputed : BankAccount :=
  { acc1 with totalIncome := 30, totalExpense := 10, currentBalance := 20 }

/-- Witness for C1 at a concrete state: one account `a1`, one matching
income of 30 and one matching expense of 10. -/
theorem recalc_sets_totals_and_balance_witness :
    acc1Recomputed.totalIncome = sumIncomeFor "a1" [inc1] ∧
    acc1Recomputed.totalExpense = sumExpenseFor "a1" [exp1] ∧
    acc1Recomputed.currentBalance =
      acc1Recomputed.totalIncome - acc1Recomputed.totalExpense :=
  recalc_sets_totals_and_balance baseState "a1" [inc1] [exp1] acc1 (by decide)
    acc1Recomputed
    (by simp [recalculateAndUpdateTotalsWithArray, recalcCore, updateBankAccount,
          updateAutoTrackedSavingsForAccount, baseState, acc1, inc1, exp1,
          acc1Recomputed]; norm_num)
    (by simp [acc1Recomputed, acc1])

/-! ## Claim C10 -/

/-- Pointwise effect of `updateAutoTrackedSavingsForAccount` on the goal
stored at index `i`. -/
theorem getElem?_autotrack (s : CoordState) (accId : String) (ti te : ℚ)
    (i : Nat) (g : SavingsGoal) (hg : s.savingsGoals[i]? = some g) :
    (updateAutoTrackedSavingsForAccount s accId ti te).savingsGoals[i]? =
      some (if goalInScope g accId then
        { g with autoTrackedAmount := max 0 (ti - te) } else g) := by
  simp [updateAutoTrackedSavingsForAccount, List.getElem?_map, hg]

/-- A goal scoped to an account other than `accId` is out of scope. -/
theorem goalInScope_false_of_other (g : SavingsGoal) (b accId : String)
    (hb : g.bankAccountId = some b) (hne : b ≠ accId) :
    goalInScope g accId = false := by
  simp [goalInScope, hb, hne]

/-- Claim C10: a recomputation of account `accId`'s totals — directly via
`updateAutoTrackedSavingsForAccount` or through
`recalculateAndUpdateTotalsWithArray` — leaves every savings goal whose
`bankAccountId` is set and differs from `accId` completely unchanged at
its position (all fields), while goals with no `bankAccountId` or with
`bankAccountId = accId` get exactly their `autoTrackedAmount` rewritten
to the clamped scope savings. -/
theorem autotrack_frame (s : CoordState) (accId : String) (ti te : ℚ) (i : Nat) :
    (∀ g b, s.savingsGoals[i]? = some g → g.bankAccountId = some b → b ≠ accId →
      (updateAutoTrackedSavingsForAccount s accId ti te).savingsGoals[i]? = some g) ∧
    (∀ g, s.savingsGoals[i]? = some g →
      (g.bankAccountId = none ∨ g.bankAccountId = some accId) →
      (updateAutoTrackedSavingsForAccount s accId ti te).savingsGoals[i]? =
        some { g with autoTrackedAmount := max 0 (ti - te) }) ∧
    (∀ g b (inc : List Income) (exp : List Expense),
      s.savingsGoals[i]? = some g → g.bankAccountId = some b → b ≠ accId →
      (recalculateAndUpdateTotalsWithArray s accId inc exp).savingsGoals[i]? = some g) := by
  refine ⟨?_, ?_, ?_⟩
  · intro g b hg hb hne
    rw [getElem?_autotrack s accId ti te i g hg,
      goalInScope_false_of_other g b accId hb hne]
    simp
  · intro g hg hscope
    rw [getElem?_autotrack s accId ti te i g hg]
    have : goalInScope g accId = true := by
      rcases hscope with h | h <;> simp [goalInScope, h]
    rw [this]
    simp
  · intro g b inc exp hg hb hne
    unfold recalculateAndUpdateTotalsWithArray recalcCore
    cases hfind : s.bankAccounts.find? (fun a => a.id == accId) with
    | none => simpa using hg
    | some account =>
      simp only []
      refine Eq.trans (getElem?_autotrack _ accId _ _ i g ?_) ?_
      · exact hg
      · rw [goalInScope_false_of_other g b accId hb hne]
        simp

/-- Shared fixture goal scoped to a *different* account `a2`. -/
def goalOther : SavingsGoal :=
  { id := "g2", userId := "u", title := "Car", bankAccountId := some "a2",
    autoTrackedAmount := 7 }

/-- Shared fixture state holding `goalOther`. -/
def stateWithGoalOther : CoordState := { baseState with savingsGoals := [goalOther] }

/-- Witness for C10: recomputing account `a1` leaves the `a2`-scoped goal
in place unchanged. -/
theorem autotrack_frame_witness :
    (updateAutoTrackedSavingsForAccount stateWithGoalOther "a1" 5 2).savingsGoals[0]? =
      some goalOther :=
  (autotrack_frame stateWithGoalOther "a1" 5 2 0).1 goalOther "a2" rfl rfl (by decide)

/-! ## Claim C4 -/

/-- Claim C4: for every non-null selected account,
`calculateFinancialSummaryWithAccount` returns `totalIncome` read from
the account's authoritative `totalIncome` (not recomputed from the month
window), `totalExpenses` equal to the monthly-expense aggregation,
`savings = totalIncome - totalExpenses`, and
`savingsRate = savings / totalIncome * 100` when income is positive and
`0` when income is zero; in particular income 5000 against aggregated
expenses 6000 yields savings `-1000` and savings rate `-20`. -/
theorem financial_summary_with_account_fields (incomes : List Income)
    (expenses : List Expense) (budgets : List Budget) (acc : BankAccount)
    (date now : Date) :
    let r := calculateFinancialSummaryWithAccount incomes expenses budgets
      (some acc) date now
    r.totalIncome = acc.totalIncome ∧
    r.totalExpenses = calculateMonthlyExpenses expenses date ∧
    r.savings = acc.totalIncome - calculateMonthlyExpenses expenses date ∧
    (0 < acc.totalIncome → r.savingsRate = r.savings / r.totalIncome * 100) ∧
    (acc.totalIncome = 0 → r.savingsRate = 0) ∧
    (acc.totalIncome = 5000 → calculateMonthlyExpenses expenses date = 6000 →
      r.savings = -1000 ∧ r.savingsRate = -20) := by
  intro r
  have hti : r.totalIncome = acc.totalIncome := rfl
  have hte : r.totalExpenses = calculateMonthlyExpenses expenses date := rfl
  have hs : r.savings = acc.totalIncome - calculateMonthlyExpenses expenses date := rfl
  have hrate : r.savingsRate =
      if acc.totalIncome > 0 then
        (acc.totalIncome - calculateMonthlyExpenses expenses date) / acc.totalIncome * 100
      else 0 := rfl
  refine ⟨hti, hte, hs, ?_, ?_, ?_⟩
  · intro hpos
    rw [hrate, if_pos hpos, hs, hti]
  · intro hzero
    rw [hrate, hzero]
    simp
  · intro h5000 h6000
    constructor
    · rw [hs, h5000, h6000]; norm_num
    · rw [hrate, h5000, h6000]
      norm_num

/-- Shared fixture account with lifetime income 5000. -/
def acc5000 : BankAccount := { acc1 with totalIncome := 5000 }

/-- Shared fixture recurring-monthly expense of 6000. -/
def exp6000 : Expense :=
  { id := "e6", userId := "u", bankAccountId := "a1", category := "rent",
    amount := 6000, date := baseDate, isRecurring := true,
    frequency := Frequency.monthly, nextDueDate := none, description := "" }

/-- Witness for C4: the 5000-income / 6000-expense scenario gives
savings -1000 and savings rate -20. -/
theorem financial_summary_with_account_fields_witness :
    (calculateFinancialSummaryWithAccount [] [exp6000] [] (some acc5000)
      baseDate baseDate).savings = -1000 ∧
    (calculateFinancialSummaryWithAccount [] [exp6000] [] (some acc5000)
      baseDate baseDate).savingsRate = -20 :=
  (financial_summary_with_account_fields [] [exp6000] [] acc5000
    baseDate baseDate).2.2.2.2.2 rfl
    (by simp [calculateMonthlyExpenses, exp6000])

/-! ## Claim C5 -/

/-- Claim C5: for every expense array, budget and reference date,
`calculateBudgetProgress` returns
`calculateCategoryExpenses / budgetAmount * 100`, and returns 0 — never
dividing — whenever `budgetAmount` is 0 (budget amounts are non-negative
at input: the budget form enforces a zero minimum). -/
theorem budget_progress_safe (expenses : List Expense) (budget : Budget)
    (date : Date) :
    (budget.budgetAmount = 0 → calculateBudgetProgress expenses budget date = 0) ∧
    (0 < budget.budgetAmount → calculateBudgetProgress expenses budget date =
      calculateCategoryExpenses expenses budget.category date /
        budget.budgetAmount * 100) := by
  constructor
  · intro hzero
    unfold calculateBudgetProgress
    rw [hzero]
    simp
  · intro hpos
    unfold calculateBudgetProgress
    rw [if_pos hpos]

/-- Shared fixture budget with zero amount. -/
def budgetZero : Budget :=
  { id := "b0", userId := "u", category := "food", budgetAmount := 0,
    period := Period.monthly, alertThreshold := 80 }

/-- Shared fixture budget of 1000 for "food". -/
def budgetFood : Budget :=
  { id := "b1", userId := "u", category := "food", budgetAmount := 1000,
    period := Period.monthly, alertThreshold := 80 }

/-- Witness for C5: a zero budget yields progress 0 without dividing, and
a positive budget yields the ratio. -/
theorem budget_progress_safe_witness :
    calculateBudgetProgress [exp1] budgetZero baseDate = 0 ∧
    calculateBudgetProgress [exp1] budgetFood baseDate =
      calculateCategoryExpenses [exp1] "food" baseDate / 1000 * 100 :=
  ⟨(budget_progress_safe [exp1] budgetZero baseDate).1 rfl,
   (budget_progress_safe [exp1] budgetFood baseDate).2 (by norm_num [budgetFood])⟩

/-! ## Claim C9 -/

/-- Shared fixture recurring expense due on 2025-06-10. -/
def expDue : Expense :=
  { id := "e9", userId := "u", bankAccountId := "a1", category := "bills",
    amount := 40, date := ⟨2025, 6, 1⟩, isRecurring := true,
    frequency := Frequency.monthly, nextDueDate := some ⟨2025, 6, 10⟩,
    description := "" }

/-- Counterexample to C9: `financialSummary` is *not* reproducible
regardless of when the calls are made — `getUpcomingBills` reads the
wall clock (`new Date()`), so two calls with identical arguments made at
different instants return different `upcomingBills` fields (the bill due
2025-06-10 is in the one-month window on 2025-06-05 but already past on
2025-06-20). -/
theorem summary_not_clock_independent :
    (calculateFinancialSummaryWithAccount [] [expDue] [] (some acc1)
      baseDate ⟨2025, 6, 5⟩).upcomingBills ≠
    (calculateFinancialSummaryWithAccount [] [expDue] [] (some acc1)
      baseDate ⟨2025, 6, 20⟩).upcomingBills := by
  decide

/-- Claim C9 (amended): given the same transaction set, budgets, selected
account and reference date, every *numeric* field of both financial
summary variants is identical regardless of the wall-clock instant at
which the call is made (and `calculateBudgetProgress`, whose only inputs
are its three arguments, is pure by construction); only the
`upcomingBills` field depends on the call-time clock. -/
theorem summary_numeric_fields_clock_independent (incomes : List Income)
    (expenses : List Expense) (budgets : List Budget)
    (selectedAccount : Option BankAccount) (date now₁ now₂ : Date) :
    (calculateFinancialSummaryWithAccount incomes expenses budgets
        selectedAccount date now₁).totalIncome =
      (calculateFinancialSummaryWithAccount incomes expenses budgets
        selectedAccount date now₂).totalIncome ∧
    (calculateFinancialSummaryWithAccount incomes expenses budgets
        selectedAccount date now₁).totalExpenses =
      (calculateFinancialSummaryWithAccount incomes expenses budgets
        selectedAccount date now₂).totalExpenses ∧
    (calculateFinancialSummaryWithAccount incomes expenses budgets
        selectedAccount date now₁).savings =
      (calculateFinancialSummaryWithAccount incomes expenses budgets
        selectedAccount date now₂).savings ∧
    (calculateFinancialSummaryWithAccount incomes expenses budgets
        selectedAccount date now₁).savingsRate =
      (calculateFinancialSummaryWithAccount incomes expenses budgets
        selectedAccount date now₂).savingsRate ∧
    (calculateFinancialSummaryWithAccount incomes expenses budgets
        selectedAccount date now₁).monthlyBudgetUsed =
      (calculateFinancialSummaryWithAccount incomes expenses budgets
        selectedAccount date now₂).monthlyBudgetUsed ∧
    (calculateFinancialSummaryWithAccount incomes expenses budgets
        selectedAccount date now₁).monthlyBudgetRemaining =
      (calculateFinancialSummaryWithAccount incomes expenses budgets
        selectedAccount date now₂).monthlyBudgetRemaining ∧
    (calculateFinancialSummary incomes expenses budgets date now₁).totalIncome =
      (calculateFinancialSummary incomes expenses budgets date now₂).totalIncome ∧
    (calculateFinancialSummary incomes expenses budgets date now₁).totalExpenses =
      (calculateFinancialSummary incomes expenses budgets date now₂).totalExpenses ∧
    (calculateFinancialSummary incomes expenses budgets date now₁).savings =
      (calculateFinancialSummary incomes expenses budgets date now₂).savings ∧
    (calculateFinancialSummary incomes expenses budgets date now₁).savingsRate =
      (calculateFinancialSummary incomes expenses budgets date now₂).savingsRate ∧
    (calculateFinancialSummary incomes expenses budgets date now₁).monthlyBudgetUsed =
      (calculateFinancialSummary incomes expenses budgets date now₂).monthlyBudgetUsed ∧
    (calculateFinancialSummary incomes expenses budgets date now₁).monthlyBudgetRemaining =
      (calculateFinancialSummary incomes expenses budgets date now₂).monthlyBudgetRemaining :=
  ⟨rfl, rfl, rfl, rfl, rfl, rfl, rfl, rfl, rfl, rfl, rfl, rfl⟩

/-! ## Claim C6 -/

/-- The behaviour C6 asserts, written from the claim's own words: the
recurring expenses whose `nextDueDate` lies within
`[now, now + horizonDays]` (day arithmetic), ascending by due date. -/
def upcomingBillsClaimed (expenses : List Expense) (horizonDays : Nat)
    (now : Date) : List Expense :=
  (expenses.filter (fun e =>
    e.isRecurring &&
      match e.nextDueDate with
      | some due => now.leb due && due.leb (addDays now horizonDays)
      | none => false)).insertionSort dueLE

/-- Shared fixture recurring expense due 20 days after 2025-06-01. -/
def expDue20 : Expense :=
  { id := "e20", userId := "u", bankAccountId := "a1", category := "bills",
    amount := 55, date := ⟨2025, 5, 1⟩, isRecurring := true,
    frequency := Frequency.monthly, nextDueDate := some ⟨2025, 6, 21⟩,
    description := "" }

/-- Counterexample to C6: with `horizonDays = 7` the source still returns
the bill due 20 days out — the window is `[now, now + 1 month]`, not
`[now, now + horizonDays]` — so `getUpcomingBills` differs from the
claimed behaviour. -/
theorem upcoming_bills_ignores_horizon_counterexample :
    getUpcomingBills [expDue20] 7 ⟨2025, 6, 1⟩ ≠
      upcomingBillsClaimed [expDue20] 7 ⟨2025, 6, 1⟩ := by
  decide

/-- Claim C6 (amended): `getUpcomingBills` returns exactly the recurring
expenses that have a `nextDueDate` falling within `[now, now + 1 month]`
— the `daysAhead` argument is ignored — sorted ascending by due date. -/
theorem upcoming_bills_characterization (expenses : List Expense)
    (d₁ d₂ : Nat) (now : Date) :
    getUpcomingBills expenses d₁ now = getUpcomingBills expenses d₂ now ∧
    (∀ e, e ∈ getUpcomingBills expenses d₁ now ↔
      e ∈ expenses ∧ e.isRecurring = true ∧
      ∃ due, e.nextDueDate = some due ∧ now.leb due = true ∧
        due.leb (addOneMonth now) = true) ∧
    List.Sorted dueLE (getUpcomingBills expenses d₁ now) := by
  refine ⟨rfl, ?_, ?_⟩
  · intro e
    unfold getUpcomingBills
    rw [(List.perm_insertionSort dueLE _).mem_iff]
    simp only [List.mem_filter, Bool.and_eq_true]
    constructor
    · rintro ⟨⟨hmem, hrec, hsome⟩, hwin⟩
      refine ⟨hmem, hrec, ?_⟩
      cases hdue : e.nextDueDate with
      | none => rw [hdue] at hsome; simp at hsome
      | some due =>
        rw [hdue] at hwin
        simp only [Bool.and_eq_true] at hwin
        exact ⟨due, rfl, hwin.1, hwin.2⟩
    · rintro ⟨hmem, hrec, due, hdue, hnow, hmonth⟩
      refine ⟨⟨hmem, hrec, ?_⟩, ?_⟩
      · rw [hdue]; rfl
      · rw [hdue]
        simp [hnow, hmonth]
  · exact List.sorted_insertionSort dueLE _

/-- Witness for C6 (amended): the 20-days-out bill is in the returned
list whatever `daysAhead` is passed. -/
theorem upcoming_bills_characterization_witness :
    expDue20 ∈ getUpcomingBills [expDue20] 7 ⟨2025, 6, 1⟩ :=
  ((upcoming_bills_characterization [expDue20] 7 99 ⟨2025, 6, 1⟩).2.1 expDue20).mpr
    ⟨by decide, by decide, ⟨2025, 6, 21⟩, by decide, by decide, by decide⟩

/-! ## Claim C7 -/

/-- The goal record constructed by a successful `addSavingsGoal`
(`autoTrackedAmount` seeded from the selected account's savings). -/
def seededGoal (s : CoordState) (uid fid : String) (goalData : SavingsGoalData) :
    SavingsGoal :=
  { id := fid
    userId := uid
    title := goalData.title
    bankAccountId := goalData.bankAccountId
    autoTrackedAmount := max 0 (match s.selectedBankAccount with
      | some account => account.totalIncome - account.totalExpense
      | none => 0) }

/-- `addSavingsGoal` is a no-op when the duplicate-title lookup hits. -/
theorem addSavingsGoal_noop (s : CoordState) (uid fid : String)
    (goalData : SavingsGoalData) (huser : s.user = some uid)
    (hfound : (s.savingsGoals.find? (fun goal =>
      goal.title.toLower == goalData.title.toLower && goal.userId == uid)).isSome) :
    addSavingsGoal s fid goalData = s := by
  obtain ⟨g0, hfind⟩ := Option.isSome_iff_exists.mp hfound
  simp only [addSavingsGoal, huser, hfind]

/-- `addSavingsGoal` appends the seeded goal when the duplicate-title
lookup misses. -/
theorem addSavingsGoal_creates (s : CoordState) (uid fid : String)
    (goalData : SavingsGoalData) (huser : s.user = some uid)
    (hnone : s.savingsGoals.find? (fun goal =>
      goal.title.toLower == goalData.title.toLower && goal.userId == uid) = none) :
    addSavingsGoal s fid goalData =
      { s with savingsGoals := s.savingsGoals ++ [seededGoal s uid fid goalData] } := by
  simp only [addSavingsGoal, huser, hnone, seededGoal]

/-- Claim C7: for every owner, `addSavingsGoal` with a title that
case-insensitively equals an existing goal's title for that owner is a
rejected no-op (the state is unchanged; the warning is an external
effect); hence calling it twice with the same title leaves exactly one
goal with that title. -/
theorem add_savings_goal_duplicate_rejected (s : CoordState) (uid : String)
    (goalData : SavingsGoalData) (fid₁ fid₂ : String)
    (huser : s.user = some uid) :
    ((∃ g ∈ s.savingsGoals, g.userId = uid ∧
        g.title.toLower = goalData.title.toLower) →
      addSavingsGoal s fid₁ goalData = s) ∧
    ((∀ g ∈ s.savingsGoals, g.userId = uid →
        g.title.toLower ≠ goalData.title.toLower) →
      addSavingsGoal (addSavingsGoal s fid₁ goalData) fid₂ goalData =
        addSavingsGoal s fid₁ goalData ∧
      ((addSavingsGoal (addSavingsGoal s fid₁ goalData) fid₂ goalData).savingsGoals.countP
        (fun g => g.title.toLower == goalData.title.toLower && g.userId == uid)) = 1) := by
  constructor
  · rintro ⟨g, hg, hu, ht⟩
    refine addSavingsGoal_noop s uid fid₁ goalData huser ?_
    rw [List.find?_isSome]
    exact ⟨g, hg, by simp [hu, ht]⟩
  · intro hno
    have hpred : ∀ g ∈ s.savingsGoals,
        (g.title.toLower == goalData.title.toLower && g.userId == uid) = false := by
      intro g hg
      by_cases hu : g.userId = uid
      · have := hno g hg hu
        simp [this, hu]
      · simp [hu]
    have hnone : s.savingsGoals.find? (fun goal =>
        goal.title.toLower == goalData.title.toLower && goal.userId == uid) = none := by
      rw [List.find?_eq_none]
      intro g hg
      simp [hpred g hg]
    have hstep1 := addSavingsGoal_creates s uid fid₁ goalData huser hnone
    have huser1 : (addSavingsGoal s fid₁ goalData).user = some uid := by
      rw [hstep1]; exact huser
    have hfind2 : (addSavingsGoal s fid₁ goalData).savingsGoals.find? (fun goal =>
        goal.title.toLower == goalData.title.toLower && goal.userId == uid) =
        some (seededGoal s uid fid₁ goalData) := by
      rw [hstep1]
      show (s.savingsGoals ++ [seededGoal s uid fid₁ goalData]).find? _ = _
      rw [List.find?_append, hnone]
      simp [List.find?_cons, seededGoal]
    have hsecond : addSavingsGoal (addSavingsGoal s fid₁ goalData) fid₂ goalData =
        addSavingsGoal s fid₁ goalData :=
      addSavingsGoal_noop _ uid fid₂ goalData huser1 (by simp [hfind2])
    refine ⟨hsecond, ?_⟩
    rw [hsecond, hstep1]
    show (s.savingsGoals ++ [seededGoal s uid fid₁ goalData]).countP _ = 1
    rw [List.countP_append, List.countP_eq_zero.mpr (by intro g hg; simp [hpred g hg])]
    simp [List.countP_cons, seededGoal]

/-- Shared fixture goal-creation payload. -/
def vacationData : SavingsGoalData :=
  { title := "Vacation", bankAccountId := none, autoTrackedAmount := 0 }

/-- Witness for C7: from a state with no goals, adding "Vacation" twice
is a no-op the second time and leaves exactly one such goal. -/
theorem add_savings_goal_duplicate_rejected_witness :
    addSavingsGoal (addSavingsGoal baseState "g1" vacationData) "g2" vacationData =
      addSavingsGoal baseState "g1" vacationData ∧
    ((addSavingsGoal (addSavingsGoal baseState "g1" vacationData) "g2"
        vacationData).savingsGoals.countP
      (fun g => g.title.toLower == vacationData.title.toLower && g.userId == "u")) = 1 :=
  (add_savings_goal_duplicate_rejected baseState "u" vacationData "g1" "g2" rfl).2
    (by intro g hg; simp [baseState] at hg)

/-! ## Claim C3 -/

/-- Invariant: every savings goal carries a non-negative
`autoTrackedAmount`. -/
def GoalsNonneg (s : CoordState) : Prop :=
  ∀ g ∈ s.savingsGoals, 0 ≤ g.autoTrackedAmount

/-- A caller-supplied goal update carrying a negative
`autoTrackedAmount`. -/
def badGoal : SavingsGoal :=
  { id := "g1", userId := "u", title := "Vacation", bankAccountId := none,
    autoTrackedAmount := -1 }

/-- Counterexample to C3: `updateSavingsGoal` is a public operation and
stores the caller-supplied goal verbatim, so starting from a state built
by public operations (one goal added via `addSavingsGoal`) it produces a
state containing a goal with `autoTrackedAmount = -1 < 0`. -/
theorem goal_nonneg_counterexample :
    ∃ g ∈ (updateSavingsGoal (addSavingsGoal baseState "g1" vacationData)
        badGoal).savingsGoals, g.autoTrackedAmount < 0 := by
  have h1 := addSavingsGoal_creates baseState "u" "g1" vacationData rfl rfl
  rw [h1]
  refine ⟨badGoal, ?_, by norm_num [badGoal]⟩
  simp [updateSavingsGoal, baseState, seededGoal, badGoal, vacationData]

/-- `updateAutoTrackedSavingsForAccount` preserves goal non-negativity. -/
theorem updateAutoTracked_nonneg (s : CoordState) (h : GoalsNonneg s)
    (accId : String) (ti te : ℚ) :
    GoalsNonneg (updateAutoTrackedSavingsForAccount s accId ti te) := by
  intro g hg
  simp only [updateAutoTrackedSavingsForAccount, List.mem_map] at hg
  obtain ⟨g0, hg0, hfg⟩ := hg
  by_cases hc : goalInScope g0 accId
  · rw [if_pos hc] at hfg
    rw [← hfg]
    exact le_max_left 0 _
  · rw [if_neg hc] at hfg
    rw [← hfg]
    exact h g0 hg0

/-- `recalcCore` preserves goal non-negativity for any lookup list. -/
theorem recalcCore_nonneg (s : CoordState) (la : List BankAccount)
    (accId : String) (inc : List Income) (exp : List Expense)
    (h : GoalsNonneg s) : GoalsNonneg (recalcCore s la accId inc exp) := by
  unfold recalcCore
  cases hfind : la.find? (fun a => a.id == accId) with
  | none => exact h
  | some account => exact updateAutoTracked_nonneg _ (fun g hg => h g hg) _ _ _

/-- Claim C3 (amended): every operation that refreshes
`autoTrackedAmount` clamps it at `max 0 (totalIncome - totalExpense)` of
its scope, and every modelled Coordinator operation preserves
`autoTrackedAmount ≥ 0` — except `updateSavingsGoal`, which stores the
caller-supplied goal verbatim and preserves the invariant only when the
supplied goal is itself non-negative. -/
theorem goal_nonneg_preserved (s : CoordState) (h : GoalsNonneg s) :
    (∀ fid data, GoalsNonneg (addSavingsGoal s fid data)) ∧
    (∀ accId (ti te : ℚ), GoalsNonneg (updateAutoTrackedSavingsForAccount s accId ti te)) ∧
    GoalsNonneg (updateAllAutoTrackedSavings s) ∧
    (∀ accId inc exp, GoalsNonneg (recalculateAndUpdateTotalsWithArray s accId inc exp)) ∧
    (∀ fid d, GoalsNonneg (addIncome s fid d)) ∧
    (∀ i, GoalsNonneg (updateIncome s i)) ∧
    (∀ iid, GoalsNonneg (deleteIncome s iid)) ∧
    (∀ fid d, GoalsNonneg (addExpense s fid d)) ∧
    (∀ e, GoalsNonneg (updateExpense s e)) ∧
    (∀ eid, GoalsNonneg (deleteExpense s eid)) ∧
    (∀ aid iid now d, GoalsNonneg (addBankAccount s aid iid now d)) ∧
    (∀ aid, GoalsNonneg (deleteBankAccount s aid)) ∧
    (∀ gid, GoalsNonneg (deleteSavingsGoal s gid)) ∧
    (∀ goal, 0 ≤ goal.autoTrackedAmount → GoalsNonneg (updateSavingsGoal s goal)) ∧
    (∀ snap, GoalsNonneg (onExpensesSnapshot s snap)) ∧
    (∀ snap, GoalsNonneg (onIncomesSnapshot s snap)) ∧
    (∀ fid d, GoalsNonneg (addBudget s fid d)) ∧
    (∀ b, GoalsNonneg (updateBudget s b)) ∧
    (∀ bid, GoalsNonneg (deleteBudget s bid)) := by
  refine ⟨?_, ?_, ?_, ?_, ?_, ?_, ?_, ?_, ?_, ?_, ?_, ?_, ?_, ?_, ?_, ?_, ?_, ?_, ?_⟩
  · intro fid data
    cases hu : s.user with
    | none => simp only [addSavingsGoal, hu]; exact h
    | some uid =>
      cases hf : s.savingsGoals.find? (fun goal =>
          goal.title.toLower == data.title.toLower && goal.userId == uid) with
      | some g0 => simp only [addSavingsGoal, hu, hf]; exact h
      | none =>
        rw [addSavingsGoal_creates s uid fid data hu hf]
        intro g hg
        rcases List.mem_append.mp hg with hg1 | hg1
        · exact h g hg1
        · rw [List.mem_singleton.mp hg1]
          exact le_max_left 0 _
  · intro accId ti te
    exact updateAutoTracked_nonneg s h accId ti te
  · unfold updateAllAutoTrackedSavings
    cases s.selectedBankAccount with
    | none => exact h
    | some account =>
      intro g hg
      simp only [List.mem_map] at hg
      obtain ⟨g0, hg0, hfg⟩ := hg
      rw [← hfg]
      exact le_max_left 0 _
  · intro accId inc exp
    exact recalcCore_nonneg s s.bankAccounts accId inc exp h
  · intro fid d
    cases hu : s.user with
    | none => simp only [addIncome, hu]; exact h
    | some uid =>
      simp only [addIncome, hu]
      exact recalcCore_nonneg _ _ _ _ _ (fun g hg => h g hg)
  · intro i
    exact recalcCore_nonneg _ _ _ _ _ (fun g hg => h g hg)
  · intro iid
    cases hf : s.incomes.find? (fun i => i.id == iid) with
    | none => simp only [deleteIncome, hf]; exact h
    | some income =>
      simp only [deleteIncome, hf]
      exact recalcCore_nonneg _ _ _ _ _ (fun g hg => h g hg)
  · intro fid d
    cases hu : s.user with
    | none => simp only [addExpense, hu]; exact h
    | some uid =>
      simp only [addExpense, hu]
      exact recalcCore_nonneg _ _ _ _ _ (fun g hg => h g hg)
  · intro e
    exact recalcCore_nonneg _ _ _ _ _ (fun g hg => h g hg)
  · intro eid
    cases hf : s.expenses.find? (fun e => e.id == eid) with
    | none => simp only [deleteExpense, hf]; exact h
    | some expense =>
      simp only [deleteExpense, hf]
      exact recalcCore_nonneg _ _ _ _ _ (fun g hg => h g hg)
  · intro aid iid now d
    cases hu : s.user with
    | none => simp only [addBankAccount, hu]; exact h
    | some uid =>
      simp only [addBankAccount, hu]
      by_cases hsb : 0 < d.startingBalance
      · rw [if_pos hsb]
        exact recalcCore_nonneg _ _ _ _ _ (fun g hg => h g hg)
      · rw [if_neg hsb]
        exact h
  · intro aid
    cases hu : s.user with
    | none => simp only [deleteBankAccount, hu]; exact h
    | some uid =>
      simp only [deleteBankAccount, hu]
      cases s.selectedBankAccount with
      | none => exact h
      | some sel =>
        by_cases hid : (sel.id == aid) = true
        · simp only [hid, if_pos]; exact h
        · simp only [Bool.not_eq_true] at hid
          simp only [hid, Bool.false_eq_true, if_false]; exact h
  · intro gid
    cases hu : s.user with
    | none => simp only [deleteSavingsGoal, hu]; exact h
    | some uid =>
      simp only [deleteSavingsGoal, hu]
      intro g hg
      exact h g (List.mem_of_mem_filter hg)
  · intro goal hgoal g hg
    simp only [updateSavingsGoal, List.mem_map] at hg
    obtain ⟨g0, hg0, hfg⟩ := hg
    by_cases hid : (g0.id == goal.id) = true
    · rw [if_pos hid] at hfg; rw [← hfg]; exact hgoal
    · simp only [Bool.not_eq_true] at hid
      rw [hid] at hfg
      simp only [Bool.false_eq_true, if_false] at hfg
      rw [← hfg]; exact h g0 hg0
  · intro snap
    exact h
  · intro snap
    exact h
  · intro fid d
    cases hu : s.user with
    | none => simp only [addBudget, hu]; exact h
    | some uid => simp only [addBudget, hu]; exact h
  · intro b
    exact h
  · intro bid
    exact h

/-- Witness for C3 (amended): applied at the fixture state (no goals),
the refresh of all auto-tracked savings keeps every goal non-negative. -/
theorem goal_nonneg_preserved_witness :
    GoalsNonneg (updateAllAutoTrackedSavings baseState) :=
  (goal_nonneg_preserved baseState (by intro g hg; simp [baseState] at hg)).2.2.1

/-! ## Claim C2 -/

/-- Shared fixture expense arriving in a remote snapshot. -/
def snapExp : Expense :=
  { id := "es", userId := "u", bankAccountId := "a1", category := "food",
    amount := 100, date := baseDate, isRecurring := false,
    frequency := Frequency.noFreq, nextDueDate := none, description := "" }

/-- Counterexample to C2: the snapshot handler does replace the working
set wholesale, but it does *not* re-run the account-totals
recomputation — after a snapshot carrying a 100-rupee expense for the
selected account `a1`, the account entity still has `totalExpense = 0`
instead of the snapshot-derived sum. -/
theorem snapshot_counterexample :
    (onExpensesSnapshot baseState [snapExp]).expenses = [snapExp] ∧
    ∃ b ∈ (onExpensesSnapshot baseState [snapExp]).bankAccounts,
      b.id = "a1" ∧ b.totalExpense ≠ sumExpenseFor "a1" [snapExp] := by
  refine ⟨rfl, acc1, List.mem_singleton.mpr rfl, rfl, ?_⟩
  show (0 : ℚ) ≠ sumExpenseFor "a1" [snapExp]
  simp [sumExpenseFor, snapExp]

/-- Claim C2 (amended): on a remote snapshot for the selected account's
expenses (resp. incomes) collection, the handler replaces the
corresponding working-set array wholesale with exactly the snapshot's
contents (any optimistic local item absent from the snapshot is
dropped) and recomputes the provider-local running total as the sum of
the snapshot's amounts; it does **not** invoke
`recalculateAndUpdateTotalsWithArray`, so the bank-account entities and
the savings goals are left unchanged by the handler. -/
theorem snapshot_replaces_wholesale_no_recompute (s : CoordState)
    (snapE : List Expense) (snapI : List Income) :
    (onExpensesSnapshot s snapE).expenses = snapE ∧
    (onExpensesSnapshot s snapE).totalExpense = (snapE.map Expense.amount).sum ∧
    (onExpensesSnapshot s snapE).bankAccounts = s.bankAccounts ∧
    (onExpensesSnapshot s snapE).savingsGoals = s.savingsGoals ∧
    (onExpensesSnapshot s snapE).loading = false ∧
    (onIncomesSnapshot s snapI).incomes = snapI ∧
    (onIncomesSnapshot s snapI).totalIncome = (snapI.map Income.amount).sum ∧
    (onIncomesSnapshot s snapI).bankAccounts = s.bankAccounts ∧
    (onIncomesSnapshot s snapI).savingsGoals = s.savingsGoals ∧
    (onIncomesSnapshot s snapI).loading = false := by
  refine ⟨rfl, ?_, rfl, rfl, rfl, rfl, ?_, rfl, rfl, rfl⟩
  · show snapE.foldl (fun sum item => sum + item.amount) 0 = _
    simpa using foldl_add_map_sum Expense.amount snapE 0
  · show snapI.foldl (fun sum item => sum + item.amount) 0 = _
    simpa using foldl_add_map_sum Income.amount snapI 0

/-! ## Claim C8 -/

/-- Shared fixture creation payload with starting balance 1000. -/
def accData1000 : BankAccountData := { bankName := "HDFC", startingBalance := 1000 }

/-- The synthetic "Initial Balance" income seeded by `addBankAccount`. -/
def initialBalanceIncome (uid incId accId : String) (now : Date) (amount : ℚ) :
    Income :=
  { id := incId, userId := uid, bankAccountId := accId,
    source := "Initial Balance", amount := amount,
    frequency := Frequency.oneTime, date := now,
    description := "Initial balance at account creation" }

/-- Counterexample to C8: the account record constructed by
`addBankAccount` for `startingBalance = 1000` carries
`totalIncome = 1000` from the start — it is *not* created with
`totalIncome = 0` as the claim states. -/
theorem add_bank_account_initial_totals_counterexample :
    (mkBankAccount "u" "a9" baseDate accData1000).totalIncome = 1000 ∧
    ¬ (mkBankAccount "u" "a9" baseDate accData1000).totalIncome = 0 := by
  refine ⟨rfl, ?_⟩
  norm_num [mkBankAccount, accData1000]

/-- Claim C8 (amended): creating a bank account with
`startingBalance = 1000` initialises it with `totalIncome = 1000` (the
starting balance, not 0) and `totalExpense = 0`, seeds exactly one
synthetic "Initial Balance" income of amount 1000 via `addIncome`,
makes the new account the selected account, and yields
`totalIncome = 1000` and `currentBalance = 1000` once seeding
completes. -/
theorem add_bank_account_seeds_initial_balance (s : CoordState)
    (uid accId incId : String) (now : Date) (data : BankAccountData)
    (huser : s.user = some uid) (hsb : data.startingBalance = 1000)
    (hfreshAcc : ∀ a ∈ s.bankAccounts, a.id ≠ accId)
    (hfreshInc : ∀ i ∈ s.incomes, i.bankAccountId ≠ accId) :
    (addBankAccount s accId incId now data).selectedBankAccount =
      some (mkBankAccount uid accId now data) ∧
    (mkBankAccount uid accId now data).totalIncome = 1000 ∧
    (mkBankAccount uid accId now data).totalExpense = 0 ∧
    (mkBankAccount uid accId now data).currentBalance = 1000 ∧
    mkBankAccount uid accId now data ∈
      (addBankAccount s accId incId now data).bankAccounts ∧
    ((addBankAccount s accId incId now data).incomes.countP
      (fun i => i.bankAccountId == accId)) = 1 ∧
    ∃ i ∈ (addBankAccount s accId incId now data).incomes,
      i.bankAccountId = accId ∧ i.source = "Initial Balance" ∧
      i.amount = 1000 := by
  have hpos : 0 < data.startingBalance := by rw [hsb]; norm_num
  have hfindnone : s.bankAccounts.find? (fun a => a.id == accId) = none :=
    List.find?_eq_none.mpr (fun a ha => by simp [hfreshAcc a ha])
  have heval : addBankAccount s accId incId now data =
      { s with
        bankAccounts := s.bankAccounts ++ [mkBankAccount uid accId now data]
        selectedBankAccount := some (mkBankAccount uid accId now data)
        incomes := s.incomes ++
          [initialBalanceIncome uid incId accId now data.startingBalance] } := by
    simp only [addBankAccount, huser]
    rw [if_pos hpos]
    unfold recalcCore
    simp only [show (mkBankAccount uid accId now data).id = accId from rfl]
    rw [hfindnone]
    rfl
  refine ⟨?_, ?_, rfl, ?_, ?_, ?_, ?_⟩
  · rw [heval]
  · show data.startingBalance = 1000
    exact hsb
  · show data.startingBalance = 1000
    exact hsb
  · rw [heval]
    exact List.mem_append_right _ (List.mem_singleton.mpr rfl)
  · rw [heval]
    show (s.incomes ++ [initialBalanceIncome uid incId accId now
      data.startingBalance]).countP _ = 1
    rw [List.countP_append,
      List.countP_eq_zero.mpr (fun i hi => by simp [hfreshInc i hi])]
    simp [List.countP_cons, initialBalanceIncome]
  · refine ⟨initialBalanceIncome uid incId accId now data.startingBalance, ?_, rfl, rfl, hsb⟩
    rw [heval]
    exact List.mem_append_right _ (List.mem_singleton.mpr rfl)

/-- Witness for C8 (amended) at the fixture state: the new account is
selected and exactly one synthetic income for it exists. -/
theorem add_bank_account_seeds_initial_balance_witness :
    (addBankAccount baseState "a9" "i9" baseDate accData1000).selectedBankAccount =
      some (mkBankAccount "u" "a9" baseDate accData1000) ∧
    ((addBankAccount baseState "a9" "i9" baseDate accData1000).incomes.countP
      (fun i => i.bankAccountId == "a9")) = 1 :=
  ⟨(add_bank_account_seeds_initial_balance baseState "u" "a9" "i9" baseDate
      accData1000 rfl rfl (by decide) (by decide)).1,
   (add_bank_account_seeds_initial_balance baseState "u" "a9" "i9" baseDate
      accData1000 rfl rfl (by decide) (by decide)).2.2.2.2.2.1⟩
